import Mathlib

/-!
Shallow embedding of the ClarifyCoder backend (rule-based pipeline) and
proofs of the frozen claims about it.

Source files embedded here:
* `agentic_clarifycoder/core/agents/eval_agent_rulebased.py`  (EvalAgent, the Critic)
* `agentic_clarifycoder/core/agents/code_agent_rulebased.py`  (CodeAgent, the Generator)
* `clarifycoder_agent/agents/agents/clarify_agent_rulebased.py` (ClarifyAgent)
* `clarifycoder_agent/agents/agents/refine_agent_rulebased.py` (RefineAgent, the Repairer)
* `agentic_clarifycoder/core/agents/answer_agent.py`          (AnswerAgent)
* `agentic_clarifycoder/core/demo/demo.py`                    (batch metrics, run_single_prompt)

Python's `exec` of generated code is abstracted as an explicit execution
model (a function from the cleaned code text to either an exception message
or a namespace of callables); everything else is translated directly.
-/

namespace ClarifyCoder

/-! ## Python string primitives -/

/-- Default whitespace set of Python `str.strip()`. -/
def pySpace (c : Char) : Bool :=
  c == ' ' || c == '\t' || c == '\n' || c == '\x0d' || c == '\x0b' || c == '\x0c'

/-- Boolean list prefix test (`l₁` is a prefix of `l₂`). -/
def listPrefixB : List Char → List Char → Bool
  | [], _ => true
  | _ :: _, [] => false
  | a :: as, b :: bs => a == b && listPrefixB as bs

/-- Python's `needle in hay` substring test. -/
def pyIn (needle hay : String) : Bool :=
  hay.data.tails.any (fun t => listPrefixB needle.data t)

/-- Python's `s.startswith(pre)`. -/
def pyStartsWith (pre s : String) : Bool :=
  listPrefixB pre.data s.data

/-- Python's `s.strip()` (default whitespace). -/
def pyStrip (s : String) : String :=
  ⟨((s.data.dropWhile pySpace).reverse.dropWhile pySpace).reverse⟩

/-- Python's `s.lower()` (ASCII case fold, as used on the ASCII rule tables). -/
def pyLower (s : String) : String :=
  ⟨s.data.map Char.toLower⟩

/-- Remainder of `hay` after the prefix `needle`, when `needle` is a prefix. -/
def dropPre : List Char → List Char → Option (List Char)
  | [], hay => some hay
  | _ :: _, [] => Option.none
  | a :: as, b :: bs => if a == b then dropPre as bs else Option.none

/-- Left-to-right, non-overlapping replacement of `needle` by `repl`,
fuelled by the haystack length (each step consumes at least one character,
so the fuel suffices). -/
def replaceAllF (needle repl : List Char) : Nat → List Char → List Char
  | 0, hay => hay
  | _ + 1, [] => []
  | fuel + 1, c :: rest =>
    match dropPre needle (c :: rest) with
    | some remainder => repl ++ replaceAllF needle repl fuel remainder
    | Option.none => c :: replaceAllF needle repl fuel rest

/-- Python's `s.replace(needle, repl)` for a non-empty needle. -/
def pyReplace (s needle repl : String) : String :=
  if needle.data.isEmpty then s
  else ⟨replaceAllF needle.data repl.data s.data.length s.data⟩

/-- Python's `s.endswith(suf)`. -/
def pyEndsWith (suf s : String) : Bool :=
  listPrefixB suf.data.reverse s.data.reverse

/-! ## Data model: verdicts and Python values -/

/-- The Critic's verdict record: `{"status": ..., "function": ..., "details": ...}`. -/
structure Verdict where
  status : String
  function : Option String
  details : String
deriving Repr, DecidableEq

/-- Python runtime values as they occur in the oracle table. -/
inductive PyVal where
  | int (n : Int)
  | bool (b : Bool)
  | str (s : String)
  | list (xs : List PyVal)
  | tuple (xs : List PyVal)
  | dict (kvs : List (String × PyVal))
  | none

mutual

/-- Structural equality on Python values (the `result != expected` test). -/
def PyVal.beq : PyVal → PyVal → Bool
  | .int a, .int b => a == b
  | .bool a, .bool b => a == b
  | .str a, .str b => a == b
  | .list a, .list b => PyVal.beqSeq a b
  | .tuple a, .tuple b => PyVal.beqSeq a b
  | .dict a, .dict b => PyVal.beqKVs a b
  | .none, .none => true
  | _, _ => false

/-- Elementwise equality of value sequences. -/
def PyVal.beqSeq : List PyVal → List PyVal → Bool
  | [], [] => true
  | a :: as, b :: bs => PyVal.beq a b && PyVal.beqSeq as bs
  | _, _ => false

/-- Elementwise equality of dict entry lists. -/
def PyVal.beqKVs : List (String × PyVal) → List (String × PyVal) → Bool
  | [], [] => true
  | (k1, v1) :: as, (k2, v2) :: bs => k1 == k2 && PyVal.beq v1 v2 && PyVal.beqKVs as bs
  | _, _ => false

end

/-- Exceptions escaping a sandboxed call: `RecursionError` is distinguished
because `_run_with_tests` catches it separately. -/
inductive PyErr where
  | recursionError
  | exn (msg : String)
deriving Repr, DecidableEq

/-- Scratch file system used by the file-I/O oracles: filename → contents. -/
abbrev FS := List (String × String)

/-- Read a file, `Option.none` when the file does not exist. -/
def FS.read (fs : FS) (name : String) : Option String :=
  (fs.find? (fun kv => kv.1 == name)).map Prod.snd

/-- Write (create or overwrite) a file. -/
def FS.write (fs : FS) (name contents : String) : FS :=
  (name, contents) :: fs.filter (fun kv => kv.1 != name)

/-- A callable in the evaluation namespace: receives the positional argument
list, may read and write the scratch files, and either returns a value or
raises. -/
abbrev PyFun := FS → List PyVal → Except PyErr (PyVal × FS)

/-- The evaluation namespace produced by `exec`: name → callable. -/
abbrev Sandbox := List (String × PyFun)

/-- Abstraction of Python `exec` on the cleaned code: an exception message,
or the namespace of callables the code defined. -/
abbrev ExecModel := String → Except String Sandbox

/-! ## EvalAgent (the Critic), from eval_agent_rulebased.py -/

/-- `self.test_cases` of `EvalAgent.__init__`, in insertion order. -/
def testCases : List (String × List (PyVal × PyVal)) :=
  [ ("factorial", [(.int 5, .int 120), (.int 0, .int 1)]),
    ("fibonacci", [(.int 5, .list [.int 0, .int 1, .int 1, .int 2, .int 3]),
                   (.int 1, .list [.int 0, .int 0])]),
    ("is_prime", [(.int 7, .bool true), (.int 8, .bool false)]),
    ("gcd", [(.tuple [.int 54, .int 24], .int 6), (.tuple [.int 20, .int 8], .int 4)]),
    ("lcm", [(.tuple [.int 4, .int 6], .int 12), (.tuple [.int 21, .int 6], .int 42)]),
    ("power", [(.tuple [.int 2, .int 3], .int 8), (.tuple [.int 5, .int 0], .int 1)]),
    ("reverse_string", [(.str "hello", .str "olleh"), (.str "abc", .str "cba")]),
    ("is_palindrome", [(.str "racecar", .bool true), (.str "hello", .bool false)]),
    ("word_count", [(.str "hello world", .int 2), (.str "one two three", .int 3)]),
    ("save_results", [(.str "hello", .str "test_output.txt")]),
    ("read_file", [(.str "test_input.txt", .str "sample text")]),
    ("append_to_file", [(.str "world", .str "append_test.txt")]),
    ("sort_list", [(.list [.int 3, .int 1, .int 2], .list [.int 1, .int 2, .int 3]),
                   (.list [.int 5, .int 4], .list [.int 4, .int 5])]),
    ("stack_push", [(.tuple [.list [.int 1, .int 2], .int 3], .list [.int 1, .int 2, .int 3])]),
    ("stack_pop", [(.list [.int 1, .int 2, .int 3], .int 3), (.list [.int 10], .int 10)]),
    ("merge_dicts", [(.tuple [.dict [("a", .int 1)], .dict [("b", .int 2)]],
                      .dict [("a", .int 1), ("b", .int 2)])]) ]

def regexKeywords : List String := ["re.findall", "re.match", "re.sub", "re.split"]

def networkKeywords : List String := ["requests.get", "requests.post", "http", "urllib"]

def dbKeywords : List String := ["sqlite3", "cursor.execute", "SELECT", "INSERT", "UPDATE", "DELETE"]

def systemKeywords : List String := ["os.", "time.", "json.", "subprocess", "pathlib"]

/-- `EvalAgent._clean_code`: remove markdown fences and strip. -/
def cleanCode (code : String) : String :=
  pyStrip (pyReplace (pyReplace code "```python" "") "```" "")

/-- `EvalAgent._keyword_fallback`. -/
def keywordFallback (code reason : String) : Verdict :=
  if regexKeywords.any (fun kw => pyIn kw code) then
    ⟨"pass", some "regex", "Regex pattern usage detected"⟩
  else if networkKeywords.any (fun kw => pyIn kw code) then
    ⟨"pass", some "networking", "Networking code detected"⟩
  else if dbKeywords.any (fun kw => pyIn kw code) then
    ⟨"pass", some "database", "Database code detected"⟩
  else if systemKeywords.any (fun kw => pyIn kw code) then
    ⟨"pass", some "system", "System utility code detected"⟩
  else if pyIn "OpenGL" code || pyIn "tensorflow" code || pyIn "torch" code then
    ⟨"unsupported", Option.none, "Unsupported library usage"⟩
  else
    ⟨"unsupported", Option.none, reason⟩

mutual

/-- Rendering of a `PyVal` into the f-string details of a failed test
(Python `str()` of the value; string elements of containers are rendered
without quotes here, a harmless simplification of Python `repr`). -/
def pyRepr : PyVal → String
  | .int n => toString n
  | .bool b => if b then "True" else "False"
  | .str s => s
  | .list xs => "[" ++ pyReprSeq xs ++ "]"
  | .tuple xs => "(" ++ pyReprSeq xs ++ ")"
  | .dict kvs => "\x7b" ++ pyReprKVs kvs ++ "\x7d"
  | .none => "None"

/-- Comma-separated rendering of a value sequence. -/
def pyReprSeq : List PyVal → String
  | [] => ""
  | [x] => pyRepr x
  | x :: y :: xs => pyRepr x ++ ", " ++ pyReprSeq (y :: xs)

/-- Comma-separated rendering of dict entries. -/
def pyReprKVs : List (String × PyVal) → String
  | [] => ""
  | [(k, v)] => "\x27" ++ k ++ "\x27: " ++ pyRepr v
  | (k, v) :: e :: kvs => "\x27" ++ k ++ "\x27: " ++ pyRepr v ++ ", " ++ pyReprKVs (e :: kvs)

end

/-- The generic oracle loop of `_run_with_tests`: run each `(input, expected)`
pair in order; a tuple input is splatted into positional arguments. -/
def runPairs (funcName : String) (f : PyFun) (fs : FS) :
    List (PyVal × PyVal) → Nat → Verdict × FS
  | [], total => (⟨"pass", some funcName, "All " ++ toString total ++ " test cases passed"⟩, fs)
  | (input, expected) :: rest, total =>
    let args := match input with
      | .tuple xs => xs
      | v => [v]
    match f fs args with
    | .error .recursionError => (⟨"fail", some funcName, "Recursion error"⟩, fs)
    | .error (.exn e) => (⟨"error", some funcName, "Runtime error: " ++ e⟩, fs)
    | .ok (result, fs') =>
      if !(PyVal.beq result expected) then
        (⟨"fail", some funcName,
          "Input " ++ pyRepr input ++ ": expected " ++ pyRepr expected ++
            ", got " ++ pyRepr result⟩, fs')
      else runPairs funcName f fs' rest total

/-- `EvalAgent._run_with_tests`, with the three file-I/O branches staged on
the explicit scratch file system. -/
def runWithTests (funcName : String) (f : PyFun) (fs : FS) : Verdict × FS :=
  if funcName == "save_results" then
    -- test_input, filename = ("hello", "test_output.txt")
    match f fs [.str "hello", .str "test_output.txt"] with
    | .error _ => (⟨"error", some funcName, "Runtime error"⟩, fs)
    | .ok (_, fs') =>
      match fs'.read "test_output.txt" with
      | Option.none => (⟨"error", some funcName, "Runtime error: file not found"⟩, fs')
      | some contents =>
        let contents := pyStrip contents
        ((if contents == "hello" then
            ⟨"pass", some funcName, "File write/read got \x27" ++ contents ++ "\x27"⟩
          else
            ⟨"fail", some funcName, "File write/read got \x27" ++ contents ++ "\x27"⟩), fs')
  else if funcName == "read_file" then
    -- filename, expected = ("test_input.txt", "sample text")
    let fs1 := fs.write "test_input.txt" "sample text"
    match f fs1 [.str "test_input.txt"] with
    | .error _ => (⟨"error", some funcName, "Runtime error"⟩, fs1)
    | .ok (.str result, fs') =>
      ((if pyStrip result == "sample text" then
          ⟨"pass", some funcName, "File read got \x27" ++ pyStrip result ++ "\x27"⟩
        else
          ⟨"fail", some funcName, "File read got \x27" ++ pyStrip result ++ "\x27"⟩), fs')
    | .ok (_, fs') => (⟨"error", some funcName, "Runtime error: not a string"⟩, fs')
  else if funcName == "append_to_file" then
    -- test_input, filename = ("world", "append_test.txt")
    let fs1 := fs.write "append_test.txt" "hello "
    match f fs1 [.str "world", .str "append_test.txt"] with
    | .error _ => (⟨"error", some funcName, "Runtime error"⟩, fs1)
    | .ok (_, fs') =>
      match fs'.read "append_test.txt" with
      | Option.none => (⟨"error", some funcName, "Runtime error: file not found"⟩, fs')
      | some contents =>
        let contents := pyStrip contents
        ((if pyEndsWith "world" contents then
            ⟨"pass", some funcName, "File append got \x27" ++ contents ++ "\x27"⟩
          else
            ⟨"fail", some funcName, "File append got \x27" ++ contents ++ "\x27"⟩), fs')
  else
    match (testCases.find? (fun kv => kv.1 == funcName)).map Prod.snd with
    | Option.none => (⟨"error", some funcName, "Runtime error"⟩, fs)
    | some pairs => runPairs funcName f fs pairs pairs.length

/-- Marker comments checked by the Critic's short circuits. -/
def nonPythonMarker : String := "# Non-Python language requested"

def noTemplateMarker : String := "# Code template not found"

/-- The part of `EvalAgent.run` after the two marker short circuits:
fence cleaning, `exec`, namespace scan, oracle run or keyword fallback. -/
def runPostClean (em : ExecModel) (fs : FS) (code : String) : Verdict × FS :=
  let clean := cleanCode code
  match em clean with
  | .error e => (keywordFallback clean ("Execution failed: " ++ e), fs)
  | .ok sandbox =>
    -- for candidate in self.test_cases.keys(): first candidate defined in the namespace
    match testCases.findSome?
        (fun kv => (sandbox.find? (fun nf => nf.1 == kv.1)).map (fun nf => (kv.1, nf.2))) with
    | some (name, f) => runWithTests name f fs
    | Option.none => (keywordFallback clean "Function not in supported list", fs)

/-- `EvalAgent.run`. -/
def runEval (em : ExecModel) (fs : FS) (code : String) : Verdict × FS :=
  if pyStartsWith nonPythonMarker (pyStrip code) then
    (⟨"unsupported", Option.none, "Non-Python language requested"⟩, fs)
  else if pyStartsWith noTemplateMarker (pyStrip code) then
    (⟨"invalid", Option.none, "No valid code generated"⟩, fs)
  else
    runPostClean em fs code

/-! ## A tiny regular-expression engine for the Clarifier's fixed patterns

`re.search` is used by the rule-based Clarifier only for three fixed
patterns (digits, an e-mail shape, a phone-number shape), and only its
truthiness is consumed.  `matchEnds` enumerates the possible suffixes left
after matching a pattern at the head of a character list; `reSearch` asks
whether a match starts at any position. -/

/-- Character class of the regex `\s` (also Python's default strip set). -/
def reSpace (c : Char) : Bool :=
  c == ' ' || c == '\t' || c == '\n' || c == '\x0d' || c == '\x0c' || c == '\x0b'

/-- Pattern shapes needed for the Clarifier's three regexes. -/
inductive Pat where
  | one (p : Char → Bool)
  | seq (a b : Pat)
  | opt (a : Pat)
  | reps (p : Char → Bool) (n : Nat)
  | more (p : Char → Bool)

/-- Suffixes remaining after matching `pat` at the head of the list. -/
def matchEnds : Pat → List Char → List (List Char)
  | .one _, [] => []
  | .one p, c :: rest => if p c then [rest] else []
  | .seq a b, l => ((matchEnds a l).map (fun l2 => matchEnds b l2)).flatten
  | .opt a, l => l :: matchEnds a l
  | .reps _ 0, l => [l]
  | .reps _ (_ + 1), [] => []
  | .reps p (n + 1), c :: rest => if p c then matchEnds (.reps p n) rest else []
  | .more _, [] => []
  | .more p, c :: rest => if p c then rest :: matchEnds (.more p) rest else []

/-- `re.search(pat, s)` truthiness: a match exists somewhere in `s`. -/
def reSearch (pat : Pat) (s : String) : Bool :=
  s.data.tails.any (fun t => !(matchEnds pat t).isEmpty)

/-- Character class `[^@\s]` of the e-mail pattern. -/
def emailChr (c : Char) : Bool :=
  !(c == '@') && !(reSpace c)

/-- The pattern `[^@\s]+@[^@\s]+\.[^@\s]+`. -/
def emailPat : Pat :=
  .seq (.more emailChr) (.seq (.one (fun c => c == '@'))
    (.seq (.more emailChr) (.seq (.one (fun c => c == '.')) (.more emailChr))))

/-- Character class `[-\s]` of the phone pattern. -/
def dashOrSpace (c : Char) : Bool :=
  c == '-' || reSpace c

/-- The pattern `\d{3}[-\s]?\d{3}[-\s]?\d{4}`. -/
def phonePat : Pat :=
  .seq (.reps Char.isDigit 3) (.seq (.opt (.one dashOrSpace))
    (.seq (.reps Char.isDigit 3) (.seq (.opt (.one dashOrSpace)) (.reps Char.isDigit 4))))

/-- The pattern `\d+` used alone; its `re.search` truthiness is just
"some character is a digit". -/
def hasDigit (s : String) : Bool :=
  s.data.any Char.isDigit

/-- Number of matches of `re.findall(r"\d+", s)`: the number of maximal
digit runs (the flag says whether a run is already open). -/
def digitRunsGo : Bool → List Char → Nat
  | _, [] => 0
  | inRun, c :: rest =>
    if c.isDigit then (if inRun then 0 else 1) + digitRunsGo true rest
    else digitRunsGo false rest

/-- `len(re.findall(r"\d+", s))`. -/
def digitRuns (l : List Char) : Nat :=
  digitRunsGo false l

/-! ## ClarifyAgent, from clarify_agent_rulebased.py -/

/-- One entry of the Clarifier's `self.rules` table. -/
structure ClarRule where
  key : String
  trigger : String
  question : String

/-- `self.rules` of `ClarifyAgent.__init__`, in insertion order. -/
def clarifyRules : List ClarRule :=
  [ ⟨"save_file", "save file", "What file format should I use (txt, csv, json)?"⟩,
    ⟨"read_file", "read file", "From which file and in what format?"⟩,
    ⟨"append_file", "append file", "Should I append or overwrite the file?"⟩,
    ⟨"sort", "sort", "What type of data do you want to sort (list, dictionary, dataframe)?"⟩,
    ⟨"find_max", "find max", "Find maximum in what (list, dict, matrix)?"⟩,
    ⟨"traverse_graph", "traverse graph", "Which algorithm should I use (BFS, DFS)?"⟩,
    ⟨"depth", "depth", "Do you want maximum depth, minimum depth, or all levels?"⟩,
    ⟨"factorial", "factorial", "Should I implement factorial iteratively or recursively?"⟩,
    ⟨"fibonacci", "fibonacci", "Do you want first n terms or up to a maximum value?"⟩,
    ⟨"prime", "prime", "Check primality for a single number or a range of numbers?"⟩,
    ⟨"gcd", "gcd", "Find gcd of how many numbers?"⟩,
    ⟨"lcm", "lcm", "Should I use gcd-based formula or brute force?"⟩,
    ⟨"power", "power", "Do you want integer exponentiation or floating power?"⟩,
    ⟨"classifier", "classifier",
      "Which classification algorithm should I use (SVM, Random Forest, Logistic Regression)?"⟩,
    ⟨"print_results", "print results", "Should I print all results or just summary statistics?"⟩,
    ⟨"reverse", "reverse", "Do you want to reverse characters or words?"⟩,
    ⟨"palindrome", "palindrome", "Should I ignore case and spaces when checking palindrome?"⟩,
    ⟨"frequency", "frequency", "Do you want word frequency or character frequency?"⟩,
    ⟨"substring", "substring", "Which substring should I search for?"⟩,
    ⟨"replace", "replace", "Which word should I replace, and with what?"⟩,
    ⟨"anagram", "anagram", "Which two words should I compare for being anagrams?"⟩,
    ⟨"network", "request", "Do you want a GET or POST request? What URL and payload?"⟩,
    ⟨"headers", "header", "Should I include authentication or custom headers?"⟩,
    ⟨"timeout", "timeout", "What timeout duration should I use for the request?"⟩,
    ⟨"query", "query", "Which database and table should I use?"⟩,
    ⟨"create_table", "create table", "What schema should the new table have?"⟩,
    ⟨"drop_table", "drop table", "Do you want a safe check before dropping the table?"⟩,
    ⟨"extract_numbers", "extract numbers", "Extract numbers from where (string, file)?"⟩,
    ⟨"email", "email", "Should I use strict or simple regex for email validation?"⟩,
    ⟨"phone", "phone", "What phone number format should I expect?"⟩,
    ⟨"hashtag", "hashtag",
      "Do you want to extract hashtags including the \x27#\x27 symbol or without it?"⟩,
    ⟨"time", "time", "Do you want current system time, execution time, or formatted date?"⟩,
    ⟨"list_files", "list files", "From which directory should I list files?"⟩,
    ⟨"env", "env", "Which environment variable should I fetch?"⟩,
    ⟨"sleep", "sleep", "How many seconds should I pause?"⟩,
    ⟨"directory", "directory", "Do you want the current working directory or to change it?"⟩,
    ⟨"cube", "cube", "Do you mean a 2D ASCII cube or 3D OpenGL rendering?"⟩,
    ⟨"game", "game", "Which game do you want to build (chess, tic-tac-toe, etc.)?"⟩,
    ⟨"large_factorial", "factorial large", "Do you want the exact value or just approximate size?"⟩,
    ⟨"recursion", "recursion", "How deep should the recursion go?"⟩,
    ⟨"big_list", "big list", "How many elements do you want in the list?"⟩,
    ⟨"tensorflow", "tensorflow",
      "Are you sure you want to use TensorFlow here? (unsupported in baseline)"⟩,
    ⟨"opengl", "opengl", "Are you sure you want to use OpenGL here? (unsupported in baseline)"⟩ ]

/-- `self.non_python_langs` of the Clarifier. -/
def clarifyNonPythonLangs : List String :=
  ["c++", "java", "c#", "javascript", "ruby", "go", "rust", "c "]

/-- The single clarification returned for a non-Python language request. -/
def langQuestion : String :=
  "Currently only Python is supported. Do you want me to proceed in Python?"

/-- The per-trigger suppression checks (the `continue` chain of
`detect_ambiguities`).  The ninth line keeps Python's operator precedence:
`key == "power" and "of" in prompt_l or "^" in prompt_l` groups as
`(key == "power" and "of" in prompt_l) or ("^" in prompt_l)`. -/
def ctxSkip (key pl : String) : Bool :=
  (key == "replace" && pyIn "with" pl) ||
  (key == "game" && ["chess", "tic-tac-toe", "sudoku", "snake"].any (fun g => pyIn g pl)) ||
  (key == "find_max" && ["list", "dict", "array", "matrix"].any (fun x => pyIn x pl)) ||
  (key == "prime" && pl.data.any Char.isDigit) ||
  (key == "fibonacci" && pl.data.any Char.isDigit) ||
  (key == "factorial" && pl.data.any Char.isDigit) ||
  (key == "gcd" && decide (2 ≤ digitRuns pl.data)) ||
  (key == "lcm" && decide (2 ≤ digitRuns pl.data)) ||
  ((key == "power" && pyIn "of" pl) || pyIn "^" pl) ||
  (key == "extract_numbers" && hasDigit pl) ||
  (key == "email" && reSearch emailPat pl) ||
  (key == "phone" && reSearch phonePat pl) ||
  (key == "hashtag" && pyIn "#" pl) ||
  (key == "time" && ["yyyy", "hh", "mm", "format"].any (fun x => pyIn x pl)) ||
  (key == "list_files" && ["current", "directory", ".", "folder"].any (fun x => pyIn x pl)) ||
  (key == "env" && ["path", "home", "pythonpath"].any (fun x => pyIn x pl)) ||
  (key == "sleep" && hasDigit pl) ||
  (key == "directory" && ["current", "working", "cwd"].any (fun x => pyIn x pl))

/-- `ClarifyAgent.detect_ambiguities`. -/
def detectAmbiguities (prompt : String) : List String :=
  let pl := pyLower prompt
  if clarifyNonPythonLangs.any (fun lang => pyIn lang pl) then [langQuestion]
  else
    (clarifyRules.filter (fun r => pyIn r.trigger pl && !(ctxSkip r.key pl))).map
      (fun r => r.question)

/-- `ClarifyAgent.run`'s result record. -/
structure ClarResult where
  original_prompt : String
  clarifications : List String
  status : String
deriving Repr, DecidableEq

/-- `ClarifyAgent.run`. -/
def clarifyRun (prompt : String) : ClarResult :=
  let clarifications := detectAmbiguities prompt
  ⟨prompt, clarifications, if clarifications.isEmpty then "clear" else "ambiguous"⟩

/-! ## CodeAgent (the Generator), from code_agent_rulebased.py -/

/-- `self.templates` of `CodeAgent.__init__`, in insertion order. -/
def codeTemplates : List (String × String) :=
  [ ("factorial",
      "def factorial(n):\n    if n == 0 or n == 1:\n        return 1\n    return n * factorial(n-1)"),
    ("save file",
      "def save_results(data, filename=\"results.txt\"):\n    with open(filename, \"w\") as f:\n        f.write(str(data))"),
    ("sort", "def sort_list(items):\n    return sorted(items)"),
    ("classifier",
      "def train_classifier(X, y):\n    # Placeholder for classifier training\n    pass"),
    ("fibonacci",
      "def fibonacci(n):\n    seq = [0, 1]\n    for i in range(2, n):\n        seq.append(seq[-1] + seq[-2])\n    return seq[:n]"),
    ("prime",
      "def is_prime(n):\n    if n < 2:\n        return False\n    for i in range(2, int(n**0.5) + 1):\n        if n % i == 0:\n            return False\n    return True"),
    ("reverse", "def reverse_string(s):\n    return s[::-1]"),
    ("gcd", "def gcd(a, b):\n    while b:\n        a, b = b, a % b\n    return a"),
    ("lcm",
      "def gcd(a, b):\n    while b:\n        a, b = b, a % b\n    return a\n\ndef lcm(a, b):\n    return abs(a*b) // gcd(a, b) if a and b else 0"),
    ("power", "def power(base, exp):\n    return base ** exp"),
    ("stack push", "def stack_push(stack, item):\n    stack.append(item)\n    return stack"),
    ("stack pop", "def stack_pop(stack):\n    return stack.pop() if stack else None"),
    ("merge dict",
      "def merge_dicts(d1, d2):\n    merged = d1.copy()\n    merged.update(d2)\n    return merged"),
    ("read file",
      "def read_file(filename):\n    with open(filename, \"r\") as f:\n        return f.read()"),
    ("append file",
      "def append_to_file(data, filename=\"results.txt\"):\n    with open(filename, \"a\") as f:\n        f.write(str(data))"),
    ("palindrome", "def is_palindrome(s):\n    return s == s[::-1]"),
    ("word count", "def word_count(s):\n    return len(s.split())"),
    ("regex extract",
      "import re\ndef extract_numbers(text):\n    return re.findall(r\x27\\d+\x27, text)"),
    ("validate email",
      "import re\ndef validate_email(s):\n    return bool(re.match(r\x27^[^@\\s]+@[^@\\s]+\\.[^@\\s]+$\x27, s))"),
    ("http get",
      "import requests\ndef fetch_page(url):\n    resp = requests.get(url)\n    return resp.status_code"),
    ("http post",
      "import requests\ndef send_post(url, payload):\n    resp = requests.post(url, json=payload)\n    return resp.status_code"),
    ("sqlite select",
      "import sqlite3\ndef run_query(db_path):\n    conn = sqlite3.connect(db_path)\n    cur = conn.cursor()\n    cur.execute(\"SELECT name FROM sqlite_master WHERE type=\x27table\x27;\")\n    rows = cur.fetchall()\n    conn.close()\n    return rows"),
    ("sqlite insert",
      "import sqlite3\ndef insert_user(db_path, user_id, name):\n    conn = sqlite3.connect(db_path)\n    cur = conn.cursor()\n    cur.execute(\"INSERT INTO users VALUES (?, ?)\", (user_id, name))\n    conn.commit()\n    conn.close()"),
    ("current time",
      "import datetime\ndef current_time():\n    return datetime.datetime.now().strftime(\"%Y-%m-%d\")"),
    ("list files", "import os\ndef list_files():\n    return os.listdir(\x27.\x27)"),
    ("sleep", "import time\ndef pause(seconds):\n    time.sleep(seconds)\n    return True"),
    ("opengl", "# OpenGL tasks not supported in baseline"),
    ("tensorflow", "# TensorFlow tasks not supported in baseline") ]

/-- Template lookup (`self.templates[key]`; all keys used below exist). -/
def tmpl (key : String) : String :=
  ((codeTemplates.find? (fun kv => kv.1 == key)).map Prod.snd).getD ""

/-- `self.non_python_langs` of the Generator. -/
def codeNonPythonLangs : List String :=
  ["c++", "java", "c#", "javascript", "ruby", "go", "rust", "c "]

/-- The Generator's stub comment for a non-Python language request. -/
def nonPythonStub : String :=
  "# Non-Python language requested, but this system only supports Python."

/-- The Generator's fallback artifact when nothing matches. -/
def noTemplateCode : String :=
  "# Code template not found for this task"

/-- `CodeAgent.run`'s result record. -/
structure CodeResult where
  clarified_prompt : String
  code : String
deriving Repr, DecidableEq

/-- `CodeAgent.run`. -/
def codeRun (clarifiedPrompt : String) : CodeResult :=
  let pl := pyLower clarifiedPrompt
  if codeNonPythonLangs.any (fun lang => pyIn lang pl) then
    ⟨clarifiedPrompt, nonPythonStub⟩
  else if pyIn "save" pl && pyIn "file" pl then ⟨clarifiedPrompt, tmpl "save file"⟩
  else if pyIn "push" pl && pyIn "stack" pl then ⟨clarifiedPrompt, tmpl "stack push"⟩
  else if pyIn "pop" pl && pyIn "stack" pl then ⟨clarifiedPrompt, tmpl "stack pop"⟩
  else if pyIn "merge" pl && pyIn "dict" pl then ⟨clarifiedPrompt, tmpl "merge dict"⟩
  else if pyIn "read" pl && pyIn "file" pl then ⟨clarifiedPrompt, tmpl "read file"⟩
  else if pyIn "append" pl && pyIn "file" pl then ⟨clarifiedPrompt, tmpl "append file"⟩
  else if pyIn "palindrome" pl then ⟨clarifiedPrompt, tmpl "palindrome"⟩
  else if pyIn "word" pl && pyIn "count" pl then ⟨clarifiedPrompt, tmpl "word count"⟩
  else if pyIn "regex" pl || pyIn "extract number" pl then ⟨clarifiedPrompt, tmpl "regex extract"⟩
  else if pyIn "email" pl then ⟨clarifiedPrompt, tmpl "validate email"⟩
  else if pyIn "http get" pl || pyIn "fetch" pl then ⟨clarifiedPrompt, tmpl "http get"⟩
  else if pyIn "http post" pl || pyIn "send post" pl then ⟨clarifiedPrompt, tmpl "http post"⟩
  else if pyIn "select" pl && pyIn "sqlite" pl then ⟨clarifiedPrompt, tmpl "sqlite select"⟩
  else if pyIn "insert" pl && pyIn "sqlite" pl then ⟨clarifiedPrompt, tmpl "sqlite insert"⟩
  else if pyIn "time" pl then ⟨clarifiedPrompt, tmpl "current time"⟩
  else if pyIn "list files" pl || pyIn "directory" pl then ⟨clarifiedPrompt, tmpl "list files"⟩
  else if pyIn "sleep" pl || pyIn "pause" pl then ⟨clarifiedPrompt, tmpl "sleep"⟩
  else if pyIn "opengl" pl then ⟨clarifiedPrompt, tmpl "opengl"⟩
  else if pyIn "tensorflow" pl then ⟨clarifiedPrompt, tmpl "tensorflow"⟩
  else
    match codeTemplates.findSome?
        (fun kv => if pyIn kv.1 pl then some kv.2 else Option.none) with
    | some c => ⟨clarifiedPrompt, c⟩
    | Option.none => ⟨clarifiedPrompt, noTemplateCode⟩

/-! ## RefineAgent (the Repairer), from refine_agent_rulebased.py -/

/-- Split a character list at newline characters. -/
def splitNl : List Char → List (List Char)
  | [] => [[]]
  | c :: rest =>
    let r := splitNl rest
    if c == '\n' then [] :: r
    else
      match r with
      | [] => [[c]]
      | h :: t => (c :: h) :: t

/-- Python's `s.splitlines()` for `\n`-separated text (no trailing empty
piece when the text ends in a newline; the generated code uses `\n` only). -/
def pySplitlines (s : String) : List String :=
  if s == "" then []
  else
    let parts := (splitNl s.data).map (fun p => (⟨p⟩ : String))
    if parts.getLast? == some "" then parts.dropLast else parts

/-- Leading-whitespace prefix of a line (`line[:len(line) - len(line.lstrip())]`). -/
def pyIndent (line : String) : String :=
  ⟨line.data.takeWhile pySpace⟩

/-- Python's `s.rstrip()`. -/
def pyRstrip (s : String) : String :=
  ⟨(s.data.reverse.dropWhile pySpace).reverse⟩

/-- `RefineAgent.run`'s result record. -/
structure RefineResult where
  refined_code : String
  action : String
deriving Repr, DecidableEq

/-- `RefineAgent.run`.  `fb` carries the Critic's status and details
(`eval_feedback.get("status", "")` / `.get("details", "").lower()`). -/
def refineRun (code : String) (fb : Verdict) : RefineResult :=
  let status := fb.status
  let details := pyLower fb.details
  if status == "fail" then
    if pyIn "got none" details then
      let fixedLines := (pySplitlines code).map (fun line =>
        if pyStrip line == "1" then pyIndent line ++ "return 1" else line)
      ⟨String.intercalate "\n" fixedLines, "Inserted missing return"⟩
    else ⟨code, "No simple fix available"⟩
  else if status == "error" && pyIn "invalid syntax" details then
    if pyIn "def " code && !(pyStartsWith "#" (pyStrip code)) then
      let fixedLines := (pySplitlines code).map (fun line =>
        if pyStartsWith "def " (pyStrip line) && !(pyEndsWith ":" (pyStrip line)) then
          pyRstrip line ++ ":"
        else line)
      ⟨String.intercalate "\n" fixedLines, "Added missing colon in function definition"⟩
    else ⟨code, "Execution error - no fix"⟩
  else if status == "unsupported" then ⟨code, "Unsupported function - no fix"⟩
  else ⟨code, "No refinement needed"⟩

/-! ## AnswerAgent, from answer_agent.py -/

/-- The completion service behind auto mode: question → short answer, or
`Option.none` when the call raises (the agent then substitutes "N/A"). -/
abbrev LlmModel := String → Option String

/-- The CLI `input()` collaborator of human mode. -/
abbrev InputModel := String → String

/-- `AnswerAgent.run`'s result record. -/
structure AnswerBundle where
  answers : List String
  qa_pairs : List (String × String)
  augmented_prompt : String
deriving Repr, DecidableEq

/-- The appended answer block: one `Answer: <a>` line per answer. -/
def answerBlock (answers : List String) : String :=
  String.intercalate "\n" (answers.map (fun a => "Answer: " ++ a))

/-- `AnswerAgent.run` (`mode` is "human" or "auto", enforced by the
constructor; `answers = Option.none` is Python's `answers=None`, and
Python's `if not answers:` treats `None` and `[]` alike). -/
def answerRun (mode : String) (cli : Bool) (inp : InputModel) (llm : LlmModel)
    (clarifications : List String) (prompt : String) (answers : Option (List String)) :
    AnswerBundle :=
  if clarifications.isEmpty then ⟨[], [], prompt⟩
  else if mode == "human" then
    let given := answers.getD []
    if given.isEmpty then
      if cli then
        let collected := clarifications.map (fun q => pyStrip (inp q))
        ⟨collected, clarifications.zip collected, prompt ++ "\n" ++ answerBlock collected⟩
      else ⟨[], [], prompt⟩
    else ⟨given, clarifications.zip given, prompt ++ "\n" ++ answerBlock given⟩
  else
    let autoAnswers := clarifications.map (fun q =>
      match llm q with
      | some r => pyStrip r
      | Option.none => "N/A")
    ⟨autoAnswers, clarifications.zip autoAnswers, prompt ++ "\n" ++ answerBlock autoAnswers⟩

/-! ## Batch metrics, from the accumulation loop and summary of demo.main -/

/-- What the batch loop of `main` observes for one prompt: the Clarifier's
status, the first verdict's status, and the status of the re-evaluation
performed when the first verdict triggers refinement. -/
structure PromptRun where
  clarStatus : String
  evalStatus : String
  reEvalStatus : String
deriving Repr, DecidableEq

/-- The statuses that trigger refinement in the batch loop (line 172). -/
def lowercaseGate : List String := ["fail", "error", "unsupported", "invalid"]

/-- After the conditional refinement, `eval_result` holds the re-evaluated
verdict (line 191); counting uses this final status. -/
def finalStatus (r : PromptRun) : String :=
  if lowercaseGate.contains r.evalStatus then r.reEvalStatus else r.evalStatus

/-- The six per-batch metrics written to the unified log. -/
structure BatchMetrics where
  crr : ℚ
  csr : ℚ
  arsr : ℚ
  rfr : ℚ
  usr : ℚ
  coverage : ℚ
deriving Repr, DecidableEq

/-- The metric phase of `main` (lines 237-303) over one batch's records.
Counters mirror the accumulation loop; ratios follow the source, where
`crr`, `usr` and `Coverage` divide by `total_prompts` unguarded (a Python
`ZeroDivisionError` is the `Except.error` case) while `arsr`, `csr` and
`rfr` guard their denominators and default to 0. -/
def computeMetrics (runs : List PromptRun) : Except String BatchMetrics :=
  let totalPrompts := runs.length
  let totalAmbiguous := runs.countP (fun r => r.clarStatus == "ambiguous")
  let ambPass := runs.countP (fun r => r.clarStatus == "ambiguous" && finalStatus r == "pass")
  let totalClear := runs.countP (fun r => !(r.clarStatus == "ambiguous"))
  let clearPass := runs.countP (fun r => !(r.clarStatus == "ambiguous") && finalStatus r == "pass")
  let globPass := runs.countP (fun r => finalStatus r == "pass")
  let globUnsupported := runs.countP (fun r => finalStatus r == "unsupported")
  let refineAttempts := runs.countP (fun r => lowercaseGate.contains r.evalStatus)
  let refineSuccess := runs.countP
    (fun r => lowercaseGate.contains r.evalStatus && r.reEvalStatus == "pass")
  if totalPrompts = 0 then .error "ZeroDivisionError"
  else
    .ok
      { crr := (totalAmbiguous : ℚ) / (totalPrompts : ℚ) * 100
        csr := if 0 < totalClear then (clearPass : ℚ) / (totalClear : ℚ) * 100 else 0
        arsr := if 0 < totalAmbiguous then (ambPass : ℚ) / (totalAmbiguous : ℚ) * 100 else 0
        rfr := if 0 < refineAttempts then (refineSuccess : ℚ) / (refineAttempts : ℚ) * 100 else 0
        usr := (globUnsupported : ℚ) / (totalPrompts : ℚ) * 100
        coverage := (globPass : ℚ) / (totalPrompts : ℚ) * 100 }

/-! ## run_single_prompt, from demo.py lines 319-391 (baseline mode) -/

/-- The statuses the single-prompt path compares against (line 359):
capitalized, unlike the Critic's lowercase statuses. -/
def capitalGate : List String := ["Fail", "Error", "Unsupported", "Invalid"]

/-- The `refine` sub-record of `run_single_prompt`'s result. -/
structure RefineInfo where
  action : String
  refined_code : String
  re_eval_status : String
deriving Repr, DecidableEq

/-- The per-prompt metric dict of `run_single_prompt`. -/
structure SingleMetrics where
  crr : ℚ
  csr : ℚ
  arsr : ℚ
  rfr : ℚ
  usr : ℚ
deriving Repr, DecidableEq

/-- `run_single_prompt`'s result record (`metrics = Option.none` models the
empty dict of the awaiting branch, `refine = Option.none` its absent key or
`refine_info = None`). -/
structure SingleResult where
  status : String
  clarifications : List String
  answers : List String
  output : Option String
  metrics : Option SingleMetrics
  refine : Option RefineInfo
deriving Repr, DecidableEq

/-- `run_single_prompt` with the baseline (rule-based) strategies, the
abstract `exec` model for the Critic, and the completion service of auto
answer mode.  The AnswerAgent is constructed without the CLI flag, so its
interactive branch is unreachable here. -/
def runSinglePrompt (em : ExecModel) (fs : FS) (llm : LlmModel) (prompt : String)
    (answers : Option (List String)) (answerMode : String) : SingleResult :=
  let clarResult := clarifyRun prompt
  let clarifications := clarResult.clarifications
  if !clarifications.isEmpty && answerMode == "human" && (answers.getD []).isEmpty then
    ⟨"awaiting_answers", clarifications, [], Option.none, Option.none, Option.none⟩
  else
    let (finalPrompt, usedAnswers) :=
      if clarifications.isEmpty then (clarResult.original_prompt, ([] : List String))
      else
        let ansResult := answerRun answerMode false (fun _ => "") llm clarifications
          clarResult.original_prompt answers
        (ansResult.augmented_prompt, ansResult.answers)
    let codeResult := codeRun finalPrompt
    let generatedCode := codeResult.code
    let (evalResult, fs1) := runEval em fs generatedCode
    let (refineInfo, rfr, outputCode) :=
      if capitalGate.contains evalResult.status then
        let refineResult := refineRun generatedCode evalResult
        let (reEvalResult, _) := runEval em fs1 refineResult.refined_code
        ((some ⟨refineResult.action, refineResult.refined_code, reEvalResult.status⟩ :
            Option RefineInfo),
          (if reEvalResult.status == "Pass" then (1 : ℚ) else 0),
          refineResult.refined_code)
      else (Option.none, (0 : ℚ), generatedCode)
    let metrics : SingleMetrics :=
      { crr := if clarResult.status == "ambiguous" then 1 else 0
        csr := if clarResult.status == "clear" && evalResult.status == "pass" then 1 else 0
        arsr := if clarResult.status == "ambiguous" && evalResult.status == "pass" then 1 else 0
        rfr := rfr
        usr := if evalResult.status == "unsupported" then 1 else 0 }
    ⟨evalResult.status, clarifications, usedAnswers, some outputCode, some metrics, refineInfo⟩

/-! ## Concrete execution models used by witnesses and the factorial run -/

/-- An execution model on which every `exec` raises. -/
def emFail : ExecModel := fun _ => .error "boom"

/-- Semantics of the `factorial` body of spec scenario A
(`if n==0 or n==1: return 1` / `return n*factorial(n-1)`), fuelled by
CPython's default recursion limit. -/
def factRec : Nat → Int → Except PyErr Int
  | 0, _ => .error .recursionError
  | fuel + 1, n =>
    if n == 0 || n == 1 then .ok 1
    else (factRec fuel (n - 1)).map (fun r => n * r)

/-- The callable named `factorial` that executing scenario A's code leaves
in the namespace. -/
def factFun : PyFun := fun fs args =>
  match args with
  | [.int n] => (factRec 1000 n).map (fun r => (.int r, fs))
  | _ => .error (.exn "TypeError")

/-- The code string of spec scenario A. -/
def factCode : String :=
  "def factorial(n):\n    if n==0 or n==1: return 1\n    return n*factorial(n-1)"

/-- The execution model that runs scenario A's code. -/
def factEm : ExecModel := fun c =>
  if c == factCode then .ok [("factorial", factFun)] else .error "NameError"

/-! ## Claims -/

/-- C1.  The claim says `run_single_prompt` invokes the Repairer exactly
when the first verdict's status is one of the lowercase
{fail, error, unsupported, invalid}, and that the re-evaluation's verdict is
the status returned.  The code instead compares against the capitalized
tokens ["Fail", "Error", "Unsupported", "Invalid"] (demo.py line 359), which
never match the rule-based Critic's lowercase statuses, and deliberately
keeps the first verdict as the returned status (line 373).  Failing input:
prompt "hello" in baseline mode — its verdict status is "invalid", a member
of the lowercase set, yet no repair happens (`refine = none`). -/
theorem C1_single_prompt_gate_never_fires_on_lowercase_invalid
    (em : ExecModel) (fs : FS) (llm : LlmModel) :
    (runSinglePrompt em fs llm "hello" Option.none "auto").status = "invalid" ∧
    lowercaseGate.contains (runSinglePrompt em fs llm "hello" Option.none "auto").status = true ∧
    (runSinglePrompt em fs llm "hello" Option.none "auto").refine = Option.none ∧
    capitalGate.contains "invalid" = false := by
  refine ⟨rfl, rfl, rfl, by decide⟩

/-- C2.  A prompt containing a non-Python language keyword (checked on the
lowercased prompt) makes the Clarifier return exactly the one
language-support question, makes the Generator return the non-Python stub
comment, and the Critic classifies that stub as `unsupported` with no
function name, independently of the execution model (so without executing
anything) and leaving the scratch files untouched. -/
theorem C2_non_python_language_pipeline
    (prompt : String) (em : ExecModel) (fs : FS)
    (h1 : clarifyNonPythonLangs.any (fun lang => pyIn lang (pyLower prompt)) = true)
    (h2 : codeNonPythonLangs.any (fun lang => pyIn lang (pyLower prompt)) = true) :
    detectAmbiguities prompt = [langQuestion] ∧
    (codeRun prompt).code = nonPythonStub ∧
    runEval em fs nonPythonStub =
      (⟨"unsupported", Option.none, "Non-Python language requested"⟩, fs) := by
  refine ⟨?_, ?_, rfl⟩
  · simp [detectAmbiguities, h1]
  · simp [codeRun, h2]

/-- C2 witness: the pipeline on the concrete prompt "write java code". -/
theorem C2_non_python_language_pipeline_witness :
    detectAmbiguities "write java code" = [langQuestion] ∧
    (codeRun "write java code").code = nonPythonStub ∧
    runEval emFail [] nonPythonStub =
      (⟨"unsupported", Option.none, "Non-Python language requested"⟩, []) :=
  C2_non_python_language_pipeline "write java code" emFail [] (by decide) (by decide)

/-- C7.  On scenario A's factorial code, with an execution model under which
the cleaned code defines the callable `factorial` with the body's semantics,
the Critic's oracle for "factorial" is the ordered pair list
[(5, 120), (0, 1)] and running it yields a passing verdict whose details
report both test cases. -/
theorem C7_factorial_scenario (em : ExecModel) (fs : FS)
    (h : em (cleanCode factCode) = .ok [("factorial", factFun)]) :
    (testCases.find? (fun kv => kv.1 == "factorial")).map Prod.snd =
      some [(.int 5, .int 120), (.int 0, .int 1)] ∧
    runEval em fs factCode =
      (⟨"pass", some "factorial", "All 2 test cases passed"⟩, fs) := by
  refine ⟨rfl, ?_⟩
  have h0 : runEval em fs factCode = runPostClean em fs factCode := rfl
  have h1 : cleanCode factCode = factCode := by decide
  rw [h1] at h
  rw [h0, runPostClean, h1, h]
  rfl

/-- C7 witness: the scenario run under the concrete model `factEm`. -/
theorem C7_factorial_scenario_witness :
    (testCases.find? (fun kv => kv.1 == "factorial")).map Prod.snd =
      some [(.int 5, .int 120), (.int 0, .int 1)] ∧
    runEval factEm [] factCode =
      (⟨"pass", some "factorial", "All 2 test cases passed"⟩, []) :=
  C7_factorial_scenario factEm [] rfl

/-- C8.  The Critic is a pure function of the execution model, the scratch
file state and the code: two invocations on the same code whose scratch
files are reset to the same state return the same verdict. -/
theorem C8_critic_idempotent (em : ExecModel) (fs1 fs2 : FS) (code : String)
    (h : fs1 = fs2) :
    (runEval em fs1 code).1 = (runEval em fs2 code).1 := by
  rw [h]

/-- C8 witness: two invocations on scenario A's code from the empty scratch
state. -/
theorem C8_critic_idempotent_witness :
    (runEval factEm [] factCode).1 = (runEval factEm [] factCode).1 :=
  C8_critic_idempotent factEm [] [] factCode rfl

/-- C6.  The keyword fallback classifies in the fixed order
regex → networking → database → system → unsupported-library → unsupported
with the original reason, each class firing only when every earlier class
missed. -/
theorem C6_keyword_fallback_order (code reason : String) :
    (regexKeywords.any (fun kw => pyIn kw code) = true →
      keywordFallback code reason = ⟨"pass", some "regex", "Regex pattern usage detected"⟩) ∧
    (regexKeywords.any (fun kw => pyIn kw code) = false →
      networkKeywords.any (fun kw => pyIn kw code) = true →
      keywordFallback code reason = ⟨"pass", some "networking", "Networking code detected"⟩) ∧
    (regexKeywords.any (fun kw => pyIn kw code) = false →
      networkKeywords.any (fun kw => pyIn kw code) = false →
      dbKeywords.any (fun kw => pyIn kw code) = true →
      keywordFallback code reason = ⟨"pass", some "database", "Database code detected"⟩) ∧
    (regexKeywords.any (fun kw => pyIn kw code) = false →
      networkKeywords.any (fun kw => pyIn kw code) = false →
      dbKeywords.any (fun kw => pyIn kw code) = false →
      systemKeywords.any (fun kw => pyIn kw code) = true →
      keywordFallback code reason = ⟨"pass", some "system", "System utility code detected"⟩) ∧
    (regexKeywords.any (fun kw => pyIn kw code) = false →
      networkKeywords.any (fun kw => pyIn kw code) = false →
      dbKeywords.any (fun kw => pyIn kw code) = false →
      systemKeywords.any (fun kw => pyIn kw code) = false →
      (pyIn "OpenGL" code || pyIn "tensorflow" code || pyIn "torch" code) = true →
      keywordFallback code reason = ⟨"unsupported", Option.none, "Unsupported library usage"⟩) ∧
    (regexKeywords.any (fun kw => pyIn kw code) = false →
      networkKeywords.any (fun kw => pyIn kw code) = false →
      dbKeywords.any (fun kw => pyIn kw code) = false →
      systemKeywords.any (fun kw => pyIn kw code) = false →
      (pyIn "OpenGL" code || pyIn "tensorflow" code || pyIn "torch" code) = false →
      keywordFallback code reason = ⟨"unsupported", Option.none, reason⟩) := by
  refine ⟨?_, ?_, ?_, ?_, ?_, ?_⟩ <;> intros <;> (simp only [keywordFallback, *]; simp)

/-- C9.  The Repairer returns the code unchanged except possibly when the
verdict is a `fail` whose lowercased details contain "got none", or an
`error` whose lowercased details contain "invalid syntax" while the code
contains a `def ` header; for `unsupported`, `invalid` and `pass` statuses
the code always comes back unchanged and only the action text varies. -/
theorem C9_refine_frame (code st det : String) (fn : Option String) :
    ((st = "fail" → pyIn "got none" (pyLower det) = false) →
      (st = "error" → pyIn "invalid syntax" (pyLower det) = true →
        pyIn "def " code = false) →
      (refineRun code ⟨st, fn, det⟩).refined_code = code) ∧
    (st = "unsupported" ∨ st = "invalid" ∨ st = "pass" →
      (refineRun code ⟨st, fn, det⟩).refined_code = code) := by
  constructor
  · intro hA hB
    unfold refineRun
    by_cases h1 : st = "fail"
    · simp [h1, hA h1]
    · by_cases h2 : st = "error"
      · by_cases h3 : pyIn "invalid syntax" (pyLower det) = true
        · simp [h1, h2, h3, hB h2 h3]
        · simp only [Bool.not_eq_true] at h3
          simp [h1, h2, h3]
      · simp [h1, h2]
        try (split <;> rfl)
  · rintro (h | h | h) <;> simp [refineRun, h]

/-- The boolean prefix test agrees with `List.IsPrefix`. -/
theorem listPrefixB_iff (as bs : List Char) : listPrefixB as bs = true ↔ as <+: bs := by
  induction as generalizing bs with
  | nil => simp [listPrefixB]
  | cons a as ih =>
    cases bs with
    | nil => simp [listPrefixB]
    | cons b bs => simp [listPrefixB, List.cons_prefix_cons, ih]

/-- No text starts with both the non-Python marker and the no-template
marker. -/
theorem markers_exclusive (l : List Char)
    (h1 : listPrefixB nonPythonMarker.data l = true)
    (h2 : listPrefixB noTemplateMarker.data l = true) : False := by
  rw [listPrefixB_iff] at h1 h2
  rcases List.prefix_or_prefix_of_prefix h1 h2 with h | h
  · exact absurd h (by decide)
  · exact absurd h (by decide)

/-- The keyword fallback never produces an `invalid` verdict. -/
theorem keywordFallback_status_ne_invalid (c r : String) :
    (keywordFallback c r).status ≠ "invalid" := by
  unfold keywordFallback
  split_ifs <;> simp

/-- The oracle loop never produces an `invalid` verdict. -/
theorem runPairs_status_ne_invalid (n : String) (f : PyFun) (pairs : List (PyVal × PyVal))
    (total : Nat) : ∀ fs : FS, (runPairs n f fs pairs total).1.status ≠ "invalid" := by
  induction pairs with
  | nil => intro fs; simp [runPairs]
  | cons p rest ih =>
    intro fs
    rcases p with ⟨input, expected⟩
    simp only [runPairs]
    split
    · simp
    · simp
    · split
      · simp
      · exact ih _

/-- `_run_with_tests` never produces an `invalid` verdict. -/
theorem runWithTests_status_ne_invalid (n : String) (f : PyFun) (fs : FS) :
    (runWithTests n f fs).1.status ≠ "invalid" := by
  unfold runWithTests
  dsimp only
  split_ifs
  · split
    · simp
    · split
      · simp
      · dsimp only
        split <;> simp
  · split
    · simp
    · split <;> simp
    · simp
  · split
    · simp
    · split
      · simp
      · dsimp only
        split <;> simp
  · split
    · simp
    · exact runPairs_status_ne_invalid _ _ _ _ _

/-- Everything after the marker short circuits never produces an `invalid`
verdict. -/
theorem runPostClean_status_ne_invalid (em : ExecModel) (fs : FS) (code : String) :
    (runPostClean em fs code).1.status ≠ "invalid" := by
  unfold runPostClean
  dsimp only
  split
  · exact keywordFallback_status_ne_invalid _ _
  · split
    · exact runWithTests_status_ne_invalid _ _ _
    · exact keywordFallback_status_ne_invalid _ _

/-- C5.  The Critic returns the verdict `invalid` with no function name
exactly when the stripped code starts with the no-template marker; in that
case the result does not depend on the execution model (the code is never
executed) and the scratch files are untouched, and in particular the
no-template artifact itself evaluates to `invalid`. -/
theorem C5_no_template_short_circuit (em : ExecModel) (fs : FS) (code : String) :
    (((runEval em fs code).1.status = "invalid" ∧
        (runEval em fs code).1.function = Option.none) ↔
      pyStartsWith noTemplateMarker (pyStrip code) = true) ∧
    (pyStartsWith noTemplateMarker (pyStrip code) = true →
      runEval em fs code = (⟨"invalid", Option.none, "No valid code generated"⟩, fs)) ∧
    runEval em fs noTemplateCode =
      (⟨"invalid", Option.none, "No valid code generated"⟩, fs) := by
  have hsc : pyStartsWith noTemplateMarker (pyStrip code) = true →
      runEval em fs code = (⟨"invalid", Option.none, "No valid code generated"⟩, fs) := by
    intro h
    have h1 : pyStartsWith nonPythonMarker (pyStrip code) = false := by
      by_contra hc
      simp only [Bool.not_eq_false] at hc
      exact markers_exclusive _ hc h
    simp [runEval, pyStartsWith] at h1 ⊢
    simp [h1, pyStartsWith] at h ⊢
    simp [h]
  refine ⟨⟨?_, ?_⟩, hsc, rfl⟩
  · rintro ⟨hs, -⟩
    by_contra hnt
    simp only [Bool.not_eq_true] at hnt
    unfold runEval at hs
    by_cases h0 : pyStartsWith nonPythonMarker (pyStrip code) = true
    · simp [h0] at hs
    · simp only [Bool.not_eq_true] at h0
      simp [h0, hnt] at hs
      exact runPostClean_status_ne_invalid em fs code hs
  · intro h
    rw [hsc h]
    exact ⟨rfl, rfl⟩

/-- Dropping a prefix from a list ending in a kept character keeps the last
character. -/
theorem dropWhile_append_last (p : Char → Bool) (xs : List Char) (c : Char)
    (h : p c = false) : ∃ t, (xs ++ [c]).dropWhile p = t ++ [c] := by
  induction xs with
  | nil => exact ⟨[], by simp [List.dropWhile_cons, h]⟩
  | cons x xs ih =>
    by_cases hx : p x = true
    · simpa [List.dropWhile_cons, hx] using ih
    · exact ⟨x :: xs, by simp [List.dropWhile_cons, hx]⟩

/-- Stripping a string whose text starts with a backtick leaves a string
that still starts with the backtick. -/
theorem pyStrip_head_backtick (s : String) (t : List Char) (h : s.data = '`' :: t) :
    ∃ t2, (pyStrip s).data = '`' :: t2 := by
  have hb : pySpace '`' = false := by decide
  unfold pyStrip
  rw [h, List.dropWhile_cons, hb]
  simp only [Bool.false_eq_true, if_false, List.reverse_cons]
  obtain ⟨u, hu⟩ := dropWhile_append_last pySpace t.reverse '`' hb
  exact ⟨u.reverse, by simp [hu]⟩

/-- When the stripped code starts with a backtick, neither marker check of
the Critic fires and evaluation proceeds past the short circuits. -/
theorem runEval_backtick_skips (em : ExecModel) (fs : FS) (s : String) (t : List Char)
    (h : (pyStrip s).data = '`' :: t) :
    runEval em fs s = runPostClean em fs s := by
  have h1 : pyStartsWith nonPythonMarker (pyStrip s) = false := by
    have hd : nonPythonMarker.data = '#' :: " Non-Python language requested".data := rfl
    simp [pyStartsWith, hd, h, listPrefixB]
  have h2 : pyStartsWith noTemplateMarker (pyStrip s) = false := by
    have hd : noTemplateMarker.data = '#' :: " Code template not found".data := rfl
    simp [pyStartsWith, hd, h, listPrefixB]
  simp [runEval, h1, h2]

/-- C10.  The Critic's marker short circuits inspect the raw (stripped but
still fenced) code: any code opening with a markdown fence line, in
particular a fenced marker comment, bypasses both short circuits and
proceeds to fence cleaning, execution and the keyword fallback
(`runPostClean`). -/
theorem C10_fence_defeats_marker_short_circuit (em : ExecModel) (fs : FS) (rest : String) :
    pyStartsWith nonPythonMarker (pyStrip ("```python\n" ++ rest)) = false ∧
    pyStartsWith noTemplateMarker (pyStrip ("```python\n" ++ rest)) = false ∧
    runEval em fs ("```python\n" ++ rest) = runPostClean em fs ("```python\n" ++ rest) := by
  have hd : ("```python\n" ++ rest).data = '`' :: ("``python\n".data ++ rest.data) := by
    simp [String.data_append]
  obtain ⟨t2, ht2⟩ := pyStrip_head_backtick _ _ hd
  refine ⟨?_, ?_, runEval_backtick_skips em fs _ _ ht2⟩
  · have hm : nonPythonMarker.data = '#' :: " Non-Python language requested".data := rfl
    simp [pyStartsWith, hm, ht2, listPrefixB]
  · have hm : noTemplateMarker.data = '#' :: " Code template not found".data := rfl
    simp [pyStartsWith, hm, ht2, listPrefixB]

/-- A ratio of counts, as a percentage, lies in [0, 100]. -/
theorem ratio_pct_mem (a b : Nat) (hab : a ≤ b) (hb : 0 < b) :
    0 ≤ ((a : ℚ) / b) * 100 ∧ ((a : ℚ) / b) * 100 ≤ 100 := by
  have hb' : (0 : ℚ) < b := by exact_mod_cast hb
  constructor
  · positivity
  · have hab' : (a : ℚ) ≤ (b : ℚ) := by exact_mod_cast hab
    have h1 : (a : ℚ) / b ≤ 1 := (div_le_one hb').mpr hab'
    nlinarith

/-- A zero-guarded ratio of counts, as a percentage, lies in [0, 100]. -/
theorem guarded_pct_mem (a b : Nat) (hab : a ≤ b) :
    0 ≤ (if 0 < b then ((a : ℚ) / b) * 100 else 0) ∧
    (if 0 < b then ((a : ℚ) / b) * 100 else 0) ≤ 100 := by
  split_ifs with hb
  · exact ratio_pct_mem a b hab hb
  · norm_num

/-- C3 counterexample.  On a batch of zero prompts the metric phase raises
`ZeroDivisionError` (the unguarded `crr` division), rather than reporting
0 for every zero-denominator ratio as the claim states. -/
theorem C3_counterexample_zero_prompts :
    computeMetrics [] = .error "ZeroDivisionError" := rfl

/-- C3 amended.  For every batch with at least one prompt all six metrics
are percentages in [0, 100]; each guarded ratio defaults to 0 on a zero
denominator: a batch with zero ambiguous prompts reports `arsr = 0`, one
with zero clear prompts reports `csr = 0`, and one with zero repair
attempts reports `rfr = 0`. -/
theorem C3_amended_metrics_bounds (runs : List PromptRun) (h : runs ≠ []) :
    ∃ m, computeMetrics runs = .ok m ∧
      (0 ≤ m.crr ∧ m.crr ≤ 100) ∧ (0 ≤ m.csr ∧ m.csr ≤ 100) ∧
      (0 ≤ m.arsr ∧ m.arsr ≤ 100) ∧ (0 ≤ m.rfr ∧ m.rfr ≤ 100) ∧
      (0 ≤ m.usr ∧ m.usr ≤ 100) ∧ (0 ≤ m.coverage ∧ m.coverage ≤ 100) ∧
      (runs.countP (fun r => r.clarStatus == "ambiguous") = 0 → m.arsr = 0) ∧
      (runs.countP (fun r => !(r.clarStatus == "ambiguous")) = 0 → m.csr = 0) ∧
      (runs.countP (fun r => lowercaseGate.contains r.evalStatus) = 0 → m.rfr = 0) := by
  have hpos : 0 < runs.length := List.length_pos.mpr h
  unfold computeMetrics
  rw [if_neg (by omega)]
  refine ⟨_, rfl, ?_, ?_, ?_, ?_, ?_, ?_, ?_, ?_, ?_⟩
  · exact ratio_pct_mem _ _ (List.countP_le_length _) hpos
  · exact guarded_pct_mem _ _ (List.countP_mono_left (fun r _ hr => by
      simp only [Bool.and_eq_true] at hr
      exact hr.1))
  · exact guarded_pct_mem _ _ (List.countP_mono_left (fun r _ hr => by
      simp only [Bool.and_eq_true] at hr
      exact hr.1))
  · exact guarded_pct_mem _ _ (List.countP_mono_left (fun r _ hr => by
      simp only [Bool.and_eq_true] at hr
      exact hr.1))
  · exact ratio_pct_mem _ _ (List.countP_le_length _) hpos
  · exact ratio_pct_mem _ _ (List.countP_le_length _) hpos
  · intro hz
    simp [hz]
  · intro hz
    simp [hz]
  · intro hz
    dsimp only
    rw [hz]
    simp

/-- C3 witness: the amended statement applied to a concrete one-prompt
batch. -/
theorem C3_amended_metrics_bounds_witness :
    ([(⟨"clear", "pass", "pass"⟩ : PromptRun)] ≠ []) ∧
    (∃ m, computeMetrics [(⟨"clear", "pass", "pass"⟩ : PromptRun)] = .ok m ∧
      (0 ≤ m.crr ∧ m.crr ≤ 100) ∧ (0 ≤ m.csr ∧ m.csr ≤ 100) ∧
      (0 ≤ m.arsr ∧ m.arsr ≤ 100) ∧ (0 ≤ m.rfr ∧ m.rfr ≤ 100) ∧
      (0 ≤ m.usr ∧ m.usr ≤ 100) ∧ (0 ≤ m.coverage ∧ m.coverage ≤ 100) ∧
      ([(⟨"clear", "pass", "pass"⟩ : PromptRun)].countP
          (fun r => r.clarStatus == "ambiguous") = 0 → m.arsr = 0) ∧
      ([(⟨"clear", "pass", "pass"⟩ : PromptRun)].countP
          (fun r => !(r.clarStatus == "ambiguous")) = 0 → m.csr = 0) ∧
      ([(⟨"clear", "pass", "pass"⟩ : PromptRun)].countP
          (fun r => lowercaseGate.contains r.evalStatus) = 0 → m.rfr = 0)) :=
  ⟨by simp, C3_amended_metrics_bounds [⟨"clear", "pass", "pass"⟩] (by simp)⟩

/-- C4 counterexample.  In human mode with two clarification questions but
only one caller-supplied answer, the Answerer still augments the prompt (one
"Answer:" line, not one per question) while `length(answers) = 1 ≠ 2 =
length(clarifications)`, contradicting the claimed invariant. -/
theorem C4_counterexample_mismatched_answers :
    (answerRun "human" false (fun _ => "") (fun _ => Option.none) ["q1", "q2"] "p"
        (some ["a1"])).augmented_prompt = "p" ++ "\n" ++ "Answer: a1" ∧
    (answerRun "human" false (fun _ => "") (fun _ => Option.none) ["q1", "q2"] "p"
        (some ["a1"])).answers.length = 1 ∧
    (["q1", "q2"] : List String).length = 2 :=
  ⟨rfl, rfl, rfl⟩

/-- C4 amended.  Provided that caller-supplied answers (when present and
used, i.e. in human mode) number exactly one per question, every run of the
Answerer either returns the empty bundle with the prompt unchanged (no
questions, or deferred human input), or returns a bundle whose answers are
aligned 1:1 with the questions, whose qa_pairs zip the questions with those
answers, and whose augmented prompt is the prompt followed by one
`Answer: <a>` line per question in question order. -/
theorem C4_amended_answer_bundle (mode : String) (cli : Bool) (inp : InputModel)
    (llm : LlmModel) (clar : List String) (prompt : String)
    (answers : Option (List String))
    (h : mode = "human" → ∀ given, answers = some given → given ≠ [] →
      given.length = clar.length) :
    answerRun mode cli inp llm clar prompt answers = ⟨[], [], prompt⟩ ∨
    ((answerRun mode cli inp llm clar prompt answers).answers.length = clar.length ∧
      (answerRun mode cli inp llm clar prompt answers).qa_pairs =
        clar.zip (answerRun mode cli inp llm clar prompt answers).answers ∧
      (answerRun mode cli inp llm clar prompt answers).augmented_prompt =
        prompt ++ "\n" ++ answerBlock (answerRun mode cli inp llm clar prompt answers).answers) := by
  unfold answerRun
  by_cases hc : clar.isEmpty
  · left
    simp [hc]
  · by_cases hm : mode = "human"
    · cases answers with
      | none =>
        by_cases hcli : cli
        · right
          simp [hc, hm, hcli]
        · left
          simp [hc, hm, hcli]
      | some given =>
        by_cases hg : given.isEmpty
        · by_cases hcli : cli
          · right
            simp [hc, hm, hg, hcli]
          · left
            simp [hc, hm, hg, hcli]
        · right
          have hlen : given.length = clar.length :=
            h hm given rfl (by simpa [List.isEmpty_iff] using hg)
          simp [hc, hm, hg, hlen]
    · right
      simp [hc, hm]

/-- C4 witness: the amended statement applied to one question with one
supplied answer in human mode. -/
theorem C4_amended_answer_bundle_witness :
    answerRun "human" false (fun _ => "") (fun _ => Option.none) ["q"] "p" (some ["a"]) =
      ⟨[], [], "p"⟩ ∨
    ((answerRun "human" false (fun _ => "") (fun _ => Option.none) ["q"] "p"
        (some ["a"])).answers.length = (["q"] : List String).length ∧
      (answerRun "human" false (fun _ => "") (fun _ => Option.none) ["q"] "p"
        (some ["a"])).qa_pairs = (["q"] : List String).zip
          (answerRun "human" false (fun _ => "") (fun _ => Option.none) ["q"] "p"
            (some ["a"])).answers ∧
      (answerRun "human" false (fun _ => "") (fun _ => Option.none) ["q"] "p"
        (some ["a"])).augmented_prompt = "p" ++ "\n" ++ answerBlock
          (answerRun "human" false (fun _ => "") (fun _ => Option.none) ["q"] "p"
            (some ["a"])).answers) :=
  C4_amended_answer_bundle "human" false (fun _ => "") (fun _ => Option.none) ["q"] "p"
    (some ["a"]) (fun _ given hg _ => by cases hg; rfl)

end ClarifyCoder
